import Mathlib

/-!
Verification of the Medora clinical summary service (`src/backend/main.py`).

The service is a thin HTTP layer over an external datastore: a `create`
route with form validation and an optional PDF upload, three list routes,
and a get-by-id route.  We embed the data model, the helper functions
(`determine_notes_type`, `parse_supabase_datetime`) and the route handlers
as executable Lean functions, with the external collaborators modelled by
their interfaces: the datastore is a list of rows supporting
filter/order/limit/single-fetch, and object storage is an upload log.
-/

namespace Medora

/-! ### JSON values and `json.loads`

`create_summary` parses the `diagnoses` form field with `json.loads`.
We model the JSON values Python can produce (numbers keep their lexeme;
no claim inspects numeric values) and give an executable parser for the
JSON grammar: literals, strings with the standard escapes, numbers,
arrays and objects, with JSON whitespace.  -/

inductive Json where
  | null
  | boolean (b : Bool)
  | number (lexeme : String)
  | str (s : String)
  | arr (elems : List Json)
  | obj (fields : List (String × Json))

def isJsonWs (c : Char) : Bool :=
  c = ' ' || c = '\t' || c = '\n' || c = '\r'

def skipWs : List Char → List Char
  | [] => []
  | c :: cs => if isJsonWs c then skipWs cs else c :: cs

def hexVal (c : Char) : Option Nat :=
  if '0' ≤ c ∧ c ≤ '9' then some (c.toNat - 48)
  else if 'a' ≤ c ∧ c ≤ 'f' then some (c.toNat - 87)
  else if 'A' ≤ c ∧ c ≤ 'F' then some (c.toNat - 55)
  else none

def escChar (c : Char) : Option Char :=
  if c = '"' then some '"'
  else if c = '\\' then some '\\'
  else if c = '/' then some '/'
  else if c = 'b' then some (Char.ofNat 8)
  else if c = 'f' then some (Char.ofNat 12)
  else if c = 'n' then some '\n'
  else if c = 'r' then some '\r'
  else if c = 't' then some '\t'
  else none

/-- Parse the body of a JSON string literal, after the opening quote;
returns the decoded characters and the rest of the input. -/
def parseStrChars : List Char → Option (List Char × List Char)
  | [] => none
  | c :: rest =>
    if c = '"' then some ([], rest)
    else if c = '\\' then
      match rest with
      | [] => none
      | e :: rest2 =>
        if e = 'u' then
          match rest2 with
          | h1 :: h2 :: h3 :: h4 :: rest3 =>
            match hexVal h1, hexVal h2, hexVal h3, hexVal h4 with
            | some a, some b, some c', some d =>
              match parseStrChars rest3 with
              | some (cs, r) => some (Char.ofNat (a * 4096 + b * 256 + c' * 16 + d) :: cs, r)
              | none => none
            | _, _, _, _ => none
          | _ => none
        else
          match escChar e with
          | none => none
          | some ec =>
            match parseStrChars rest2 with
            | some (cs, r) => some (ec :: cs, r)
            | none => none
    else
      match parseStrChars rest with
      | some (cs, r) => some (c :: cs, r)
      | none => none

def takeDigits : List Char → List Char × List Char
  | [] => ([], [])
  | c :: rest =>
    if c.isDigit then
      let (ds, r) := takeDigits rest
      (c :: ds, r)
    else ([], c :: rest)

/-- Parse a JSON number lexeme: `-?int frac? exp?` with the JSON
leading-zero rule.  Returns the lexeme characters and the rest. -/
def parseNumChars (cs : List Char) : Option (List Char × List Char) :=
  let (sign, cs1) : List Char × List Char :=
    match cs with
    | '-' :: rest => (['-'], rest)
    | _ => ([], cs)
  match takeDigits cs1 with
  | ([], _) => none
  | (intDs, cs2) =>
    if intDs.length > 1 ∧ intDs.headD '0' = '0' then none
    else
      let (fracDs, cs3) : List Char × List Char :=
        match cs2 with
        | '.' :: rest =>
          match takeDigits rest with
          | ([], _) => ([], cs2)
          | (ds, r) => ('.' :: ds, r)
        | _ => ([], cs2)
      let (expDs, cs4) : List Char × List Char :=
          match cs3 with
          | 'e' :: '+' :: rest =>
            (match takeDigits rest with
             | ([], _) => ([], cs3)
             | (ds, r) => ('e' :: '+' :: ds, r))
          | 'e' :: '-' :: rest =>
            (match takeDigits rest with
             | ([], _) => ([], cs3)
             | (ds, r) => ('e' :: '-' :: ds, r))
          | 'e' :: rest =>
            (match takeDigits rest with
             | ([], _) => ([], cs3)
             | (ds, r) => ('e' :: ds, r))
          | 'E' :: '+' :: rest =>
            (match takeDigits rest with
             | ([], _) => ([], cs3)
             | (ds, r) => ('E' :: '+' :: ds, r))
          | 'E' :: '-' :: rest =>
            (match takeDigits rest with
             | ([], _) => ([], cs3)
             | (ds, r) => ('E' :: '-' :: ds, r))
          | 'E' :: rest =>
            (match takeDigits rest with
             | ([], _) => ([], cs3)
             | (ds, r) => ('E' :: ds, r))
          | _ => ([], cs3)
      some (sign ++ intDs ++ fracDs ++ expDs, cs4)

def expectLit : List Char → List Char → Option (List Char)
  | [], rest => some rest
  | _, [] => none
  | l :: ls, c :: cs => if l = c then expectLit ls cs else none

/-- Fuel-indexed JSON parser.  `mode = 0` parses a single value; `mode = 1`
parses one-or-more comma-separated array elements up to `]`, wrapped in
`Json.arr`; `mode = 2` parses one-or-more object members up to the closing
brace, wrapped in `Json.obj`.  The fuel bounds the recursion depth. -/
def parseJ : Nat → Nat → List Char → Option (Json × List Char)
  | 0, _, _ => none
  | fuel + 1, 0, cs =>
    (match skipWs cs with
     | [] => none
     | c :: rest =>
       if c = 'n' then
         match expectLit ['u', 'l', 'l'] rest with
         | some r => some (Json.null, r)
         | none => none
       else if c = 't' then
         match expectLit ['r', 'u', 'e'] rest with
         | some r => some (Json.boolean true, r)
         | none => none
       else if c = 'f' then
         match expectLit ['a', 'l', 's', 'e'] rest with
         | some r => some (Json.boolean false, r)
         | none => none
       else if c = '"' then
         match parseStrChars rest with
         | some (s, r) => some (Json.str (String.mk s), r)
         | none => none
       else if c = '[' then
         match skipWs rest with
         | ']' :: r => some (Json.arr [], r)
         | r1 => parseJ fuel 1 r1
       else if c = '{' then
         match skipWs rest with
         | '}' :: r => some (Json.obj [], r)
         | r1 => parseJ fuel 2 r1
       else
         match parseNumChars (c :: rest) with
         | some (lex, r) => some (Json.number (String.mk lex), r)
         | none => none)
  | fuel + 1, 1, cs =>
    (match parseJ fuel 0 cs with
     | none => none
     | some (v, r1) =>
       match skipWs r1 with
       | ',' :: r2 =>
         (match parseJ fuel 1 r2 with
          | some (Json.arr xs, r) => some (Json.arr (v :: xs), r)
          | _ => none)
       | ']' :: r2 => some (Json.arr [v], r2)
       | _ => none)
  | fuel + 1, _, cs =>
    (match skipWs cs with
     | '"' :: r0 =>
       (match parseStrChars r0 with
        | none => none
        | some (k, r1) =>
          match skipWs r1 with
          | ':' :: r2 =>
            (match parseJ fuel 0 r2 with
             | none => none
             | some (v, r3) =>
               match skipWs r3 with
               | ',' :: r4 =>
                 (match parseJ fuel 2 r4 with
                  | some (Json.obj fs, r) => some (Json.obj ((String.mk k, v) :: fs), r)
                  | _ => none)
               | '}' :: r4 => some (Json.obj [(String.mk k, v)], r4)
               | _ => none)
          | _ => none)
     | _ => none)

/-- Model of Python's `json.loads`: parse one JSON value, allowing only
trailing whitespace; `none` models a raised `json.JSONDecodeError`. -/
def jsonLoads (s : String) : Option Json :=
  match parseJ (2 * s.data.length + 2) 0 s.data with
  | some (v, rest) => if skipWs rest = [] then some v else none
  | none => none

/-! ### Python datetimes and `datetime.fromisoformat`

`parse_supabase_datetime` normalises the `created_at` string from the
datastore and hands it to `datetime.fromisoformat`.  We model Python
datetimes with an optional UTC offset (`none` = a naive datetime) and
`fromisoformat` by its documented contract: the string is split as
`dstr = s[0:10]` (a `YYYY-MM-DD` date) and `tstr = s[11:]` (a
`HH[:MM[:SS[.fff[fff]]]]` time with an optional `[+-]HH:MM[:SS[.ffffff]]`
offset); the character at index 10 separates date and time and may be any
single character.  An empty `tstr` yields midnight.  The offset split
looks for the first `-`, else the first `+`, in `tstr`. -/

structure PyDatetime where
  year : Nat
  month : Nat
  day : Nat
  hour : Nat
  minute : Nat
  second : Nat
  microsecond : Nat
  /-- UTC offset in microseconds; `none` models a naive datetime
  (`tzinfo is None`). -/
  utcoffset_us : Option Int
  deriving Repr, DecidableEq

def isLeapYear (y : Nat) : Bool :=
  (y % 4 = 0 && y % 100 != 0) || y % 400 = 0

def daysInMonth (y m : Nat) : Nat :=
  if m = 2 then (if isLeapYear y then 29 else 28)
  else if m = 4 || m = 6 || m = 9 || m = 11 then 30
  else 31

def digit2 (a b : Char) : Nat :=
  (a.toNat - 48) * 10 + (b.toNat - 48)

/-- Parse exactly `YYYY-MM-DD` (with the `datetime` range checks). -/
def parseIsoDate : List Char → Option (Nat × Nat × Nat)
  | [y1, y2, y3, y4, '-', m1, m2, '-', d1, d2] =>
    if y1.isDigit && y2.isDigit && y3.isDigit && y4.isDigit
        && m1.isDigit && m2.isDigit && d1.isDigit && d2.isDigit then
      let y := digit2 y1 y2 * 100 + digit2 y3 y4
      let m := digit2 m1 m2
      let d := digit2 d1 d2
      if 1 ≤ y && 1 ≤ m && m ≤ 12 && 1 ≤ d && d ≤ daysInMonth y m then
        some (y, m, d)
      else none
    else none
  | _ => none

/-- Parse `HH`, `HH:MM`, `HH:MM:SS`, `HH:MM:SS.fff` or `HH:MM:SS.ffffff`
(hour, minute, second, microsecond), as CPython `_parse_hh_mm_ss_ff`. -/
def parseHhMmSsFf : List Char → Option (Nat × Nat × Nat × Nat)
  | [h1, h2] =>
    if h1.isDigit && h2.isDigit then some (digit2 h1 h2, 0, 0, 0) else none
  | [h1, h2, ':', m1, m2] =>
    if h1.isDigit && h2.isDigit && m1.isDigit && m2.isDigit then
      some (digit2 h1 h2, digit2 m1 m2, 0, 0)
    else none
  | [h1, h2, ':', m1, m2, ':', s1, s2] =>
    if h1.isDigit && h2.isDigit && m1.isDigit && m2.isDigit
        && s1.isDigit && s2.isDigit then
      some (digit2 h1 h2, digit2 m1 m2, digit2 s1 s2, 0)
    else none
  | [h1, h2, ':', m1, m2, ':', s1, s2, '.', f1, f2, f3] =>
    if h1.isDigit && h2.isDigit && m1.isDigit && m2.isDigit && s1.isDigit
        && s2.isDigit && f1.isDigit && f2.isDigit && f3.isDigit then
      some (digit2 h1 h2, digit2 m1 m2, digit2 s1 s2,
        ((f1.toNat - 48) * 100 + (f2.toNat - 48) * 10 + (f3.toNat - 48)) * 1000)
    else none
  | [h1, h2, ':', m1, m2, ':', s1, s2, '.', f1, f2, f3, f4, f5, f6] =>
    if h1.isDigit && h2.isDigit && m1.isDigit && m2.isDigit && s1.isDigit
        && s2.isDigit && f1.isDigit && f2.isDigit && f3.isDigit
        && f4.isDigit && f5.isDigit && f6.isDigit then
      some (digit2 h1 h2, digit2 m1 m2, digit2 s1 s2,
        (f1.toNat - 48) * 100000 + (f2.toNat - 48) * 10000 + (f3.toNat - 48) * 1000
          + (f4.toNat - 48) * 100 + (f5.toNat - 48) * 10 + (f6.toNat - 48))
    else none
  | _ => none

/-- Index of the first occurrence of `c`, if any. -/
def findChar (c : Char) : List Char → Option Nat
  | [] => none
  | x :: xs =>
    if x = c then some 0
    else match findChar c xs with
      | some i => some (i + 1)
      | none => none

/-- CPython `_parse_isoformat_time`: split the time string at the first
`-` (else the first `+`); what follows is the offset (`HH:MM`, `HH:MM:SS`
or `HH:MM:SS.ffffff`, i.e. length 5, 8 or 15), whose absolute value must
be under 24 hours. -/
def parseIsoTime (tstr : List Char) : Option ((Nat × Nat × Nat × Nat) × Option Int) :=
  let tzpos :=
    match findChar '-' tstr with
    | some i => some i
    | none => findChar '+' tstr
  match tzpos with
  | none =>
    match parseHhMmSsFf tstr with
    | some t => some (t, none)
    | none => none
  | some i =>
    let timestr := tstr.take i
    let tzsign : Int := if tstr.get? i = some '-' then -1 else 1
    let tzstr := tstr.drop (i + 1)
    if tzstr.length = 5 || tzstr.length = 8 || tzstr.length = 15 then
      match parseHhMmSsFf timestr, parseHhMmSsFf tzstr with
      | some t, some (th, tm, ts, tf) =>
        let offus : Nat := ((th * 3600 + tm * 60 + ts) * 1000000 + tf)
        if offus < 86400000000 then some (t, some (tzsign * (offus : Int)))
        else none
      | _, _ => none
    else none

/-- `datetime.fromisoformat` on an exploded string: `s[0:10]` is the date,
`s[10]` (if present) is an arbitrary separator, `s[11:]` is the time; an
empty time part yields naive midnight.  The assembled datetime applies the
`datetime(...)` constructor range checks. -/
def fromisoChars (cs : List Char) : Option PyDatetime :=
  match parseIsoDate (cs.take 10) with
  | none => none
  | some (y, m, d) =>
    match cs.drop 11 with
    | [] => some ⟨y, m, d, 0, 0, 0, 0, none⟩
    | _ :: _ =>
      match parseIsoTime (cs.drop 11) with
      | none => none
      | some ((hh, mm, ss, ff), off) =>
        if hh ≤ 23 && mm ≤ 59 && ss ≤ 59 then
          some ⟨y, m, d, hh, mm, ss, ff, off⟩
        else none

def fromisoformat (s : String) : Option PyDatetime :=
  fromisoChars s.data

/-- Python `datetime_str.replace('Z', '+00:00')` (replaces every `Z`). -/
def replaceZchars : List Char → List Char
  | [] => []
  | c :: cs =>
    if c = 'Z' then '+' :: '0' :: '0' :: ':' :: '0' :: '0' :: replaceZchars cs
    else c :: replaceZchars cs

/-- `parse_supabase_datetime` from `src/backend/main.py`: if the string
ends in `Z`, replace `Z` by `+00:00`; otherwise if it contains `+` or more
than two `-`, parse it as is ("has timezone info"); otherwise append
`+00:00` ("no timezone, assume UTC"). -/
def parse_supabase_datetime (s : String) : Option PyDatetime :=
  let cs := s.data
  if cs.getLast? = some 'Z' then
    fromisoChars (replaceZchars cs)
  else if cs.contains '+' || cs.count '-' > 2 then
    fromisoChars cs
  else
    fromisoChars (cs ++ ['+', '0', '0', ':', '0', '0'])

/-! ### Data model

`ClinicalSummary` rows as stored in the `clinical_summaries` table.
`summary_id` and `created_at` are generated by the datastore on insert;
`created_at` is a UTC instant, which we represent in microseconds since
the epoch (the resolution of the datastore timestamps). -/

structure SummaryRow where
  summary_id : String
  patient_id : String
  patient_name : String
  summary_text : String
  diagnoses : List Json
  affected_system : Option String
  affected_organ : Option String
  animation_asset : Option String
  raw_notes_type : String
  raw_notes_text : Option String
  raw_notes_file_url : Option String
  created_at : Nat

/-- The datastore table: insert appends a row. -/
abbrev Datastore := List SummaryRow

/-- Response model `SummaryResponse` (the full record). -/
structure SummaryResponse where
  summary_id : String
  patient_id : String
  patient_name : String
  summary_text : String
  diagnoses : List Json
  affected_system : Option String
  affected_organ : Option String
  animation_asset : Option String
  raw_notes_type : String
  raw_notes_text : Option String
  raw_notes_file_url : Option String
  created_at : Nat

/-- Response model `SummaryListItem` (the list-view projection). -/
structure SummaryListItem where
  summary_id : String
  patient_name : String
  summary_text : String
  affected_organ : Option String
  animation_asset : Option String
  created_at : Nat

/-- The response-shaping used identically by `create_summary` and
`get_summary_by_id`: every field is echoed from the row (`diagnoses` is
always a list here, so the `isinstance(..., list)` guard is the
identity). -/
def rowToResponse (r : SummaryRow) : SummaryResponse :=
  { summary_id := r.summary_id
    patient_id := r.patient_id
    patient_name := r.patient_name
    summary_text := r.summary_text
    diagnoses := r.diagnoses
    affected_system := r.affected_system
    affected_organ := r.affected_organ
    animation_asset := r.animation_asset
    raw_notes_type := r.raw_notes_type
    raw_notes_text := r.raw_notes_text
    raw_notes_file_url := r.raw_notes_file_url
    created_at := r.created_at }

def rowToListItem (r : SummaryRow) : SummaryListItem :=
  { summary_id := r.summary_id
    patient_name := r.patient_name
    summary_text := r.summary_text
    affected_organ := r.affected_organ
    animation_asset := r.animation_asset
    created_at := r.created_at }

/-- `fastapi.HTTPException`: a status code and a detail message. -/
structure HTTPException where
  status_code : Nat
  detail : String
  deriving Repr, DecidableEq

/-- An uploaded multipart file (`starlette.UploadFile`); only the
filename is inspected by the service logic. -/
structure UploadFile where
  filename : String

/-- Python truthiness of an optional string form field: `None` and the
empty string are falsy. -/
def truthy : Option String → Bool
  | none => false
  | some s => s != ""

/-- `determine_notes_type` from `src/backend/main.py`: an `UploadFile`
object is always truthy, a string is truthy iff non-empty. -/
def determine_notes_type (raw_notes_text : Option String)
    (raw_notes_file : Option UploadFile) : String :=
  if raw_notes_file.isSome then "pdf"
  else if truthy raw_notes_text then "text"
  else "none"

/-- The multipart form consumed by `POST /summaries`.  `patient_id`,
`patient_name` and `summary_text` are required form fields (FastAPI
delivers them as strings); `diagnoses` defaults to `"[]"`. -/
structure CreateRequest where
  patient_id : String
  patient_name : String
  summary_text : String
  diagnoses : String := "[]"
  affected_system : Option String := none
  affected_organ : Option String := none
  animation_asset : Option String := none
  raw_notes_text : Option String := none
  raw_notes_file : Option UploadFile := none

/-- Values generated by the external collaborators during one create:
the datastore-assigned primary key and timestamp, and the `uuid.uuid4()`
used for the storage key. -/
structure Env where
  fresh_summary_id : String
  db_now_us : Nat
  upload_uuid : String

/-- Python string whitespace for `str.strip()` (the ASCII whitespace
characters). -/
def isPyWs (c : Char) : Bool :=
  c = ' ' || c = '\t' || c = '\n' || c = '\r' || c = Char.ofNat 11 || c = Char.ofNat 12

/-- Python `s.strip()`. -/
def pyStrip (s : String) : String :=
  String.mk (((s.data.dropWhile isPyWs).reverse.dropWhile isPyWs).reverse)

/-- Python `s.endswith(suffix)`. -/
def pyEndsWith (s suffix : String) : Bool :=
  List.isPrefixOf suffix.data.reverse s.data.reverse

/-- Index of the last occurrence of `c` (Python `str.rfind`), if any. -/
def rfindChar (c : Char) (cs : List Char) : Option Nat :=
  match findChar c cs.reverse with
  | some i => some (cs.length - 1 - i)
  | none => none

/-- The final path component (everything after the last `/`). -/
def afterLastSlash (cs : List Char) : List Char :=
  match rfindChar '/' cs with
  | some i => cs.drop (i + 1)
  | none => cs

/-- `PurePath(name).suffix`: with `i` the last dot of the final
component, the suffix is `name[i:]` when `0 < i < len(name) - 1`, else
empty (dotfiles and names without an inner dot have no suffix). -/
def pathSuffix (filename : String) : String :=
  let name := afterLastSlash filename.data
  match rfindChar '.' name with
  | some i => if 0 < i && i < name.length - 1 then String.mk (name.drop i) else ""
  | none => ""

/-- `upload_pdf_to_supabase`: build the storage key
`{patient_id}/{uuid4()}{extension or ".pdf"}`, upload the bytes, and
return the key together with its public URL (the URL contents are
supplied by the external object store; only its presence matters). -/
def upload_pdf_to_supabase (env : Env) (file : UploadFile)
    (patient_id : String) : String × String :=
  let ext := if pathSuffix file.filename = "" then ".pdf" else pathSuffix file.filename
  let key := patient_id ++ "/" ++ env.upload_uuid ++ ext
  (key, "public:" ++ key)

/-- Everything observable about one `POST /summaries` request: the HTTP
result, the datastore afterwards, and the storage keys uploaded. -/
structure CreateOutcome where
  result : Except HTTPException SummaryResponse
  db : Datastore
  uploads : List String

/-- Outcome of `json.loads` on the `diagnoses` field inside the inner
`try` of `create_summary`. -/
inductive DiagnosesParse where
  | malformed
  | notArray (v : Json)
  | ok (elems : List Json)

/-- `diagnoses_list = json.loads(diagnoses) if diagnoses else []`,
followed by the `isinstance(diagnoses_list, list)` test. -/
def parseDiagnoses (s : String) : DiagnosesParse :=
  if s = "" then .ok []
  else
    match jsonLoads s with
    | none => .malformed
    | some (Json.arr xs) => .ok xs
    | some v => .notArray v

/-- The `summary_data` dict assembled by `create_summary`, with the
datastore-generated `summary_id` and `created_at` filled in on insert. -/
def mkRow (env : Env) (req : CreateRequest) (diagnoses_list : List Json)
    (notes_type : String) (raw_notes_file_url : Option String) : SummaryRow :=
  { summary_id := env.fresh_summary_id
    patient_id := req.patient_id
    patient_name := req.patient_name
    summary_text := req.summary_text
    diagnoses := diagnoses_list
    affected_system := req.affected_system
    affected_organ := req.affected_organ
    animation_asset := req.animation_asset
    raw_notes_type := notes_type
    raw_notes_text := req.raw_notes_text
    raw_notes_file_url := raw_notes_file_url
    created_at := env.db_now_us }

/-- Insert the row and shape the response from the inserted row (the
datastore echoes the inserted values and adds `summary_id` and
`created_at`). -/
def finishCreate (env : Env) (req : CreateRequest) (diagnoses_list : List Json)
    (notes_type : String) (raw_notes_file_url : Option String)
    (db : Datastore) (uploads : List String) : CreateOutcome :=
  { result := .ok (rowToResponse (mkRow env req diagnoses_list notes_type raw_notes_file_url))
    db := db ++ [mkRow env req diagnoses_list notes_type raw_notes_file_url]
    uploads := uploads }

/-- `POST /summaries` (`create_summary` in `src/backend/main.py`).

The inner `try` parses `diagnoses`; a `json.JSONDecodeError` becomes a
400, but the `ValueError("Diagnoses must be a JSON array")` raised for a
non-list value is not a `json.JSONDecodeError`, so it escapes to the
route-level `except Exception` handler and surfaces as a 500 with the
message `"Error creating summary: ..."`.  Then the three required fields
are checked (`not field or not field.strip()`), then text/file mutual
exclusivity (by truthiness), then — only when a file is present — the
`.pdf` filename check, followed by the upload and the insert. -/
def create_summary (env : Env) (req : CreateRequest) (db : Datastore) : CreateOutcome :=
  match parseDiagnoses req.diagnoses with
  | .malformed =>
    { result := .error ⟨400, "Invalid JSON format for diagnoses field. Expected JSON array."⟩
      db := db, uploads := [] }
  | .notArray _ =>
    { result := .error ⟨500, "Error creating summary: Diagnoses must be a JSON array"⟩
      db := db, uploads := [] }
  | .ok diagnoses_list =>
    if req.patient_id = "" || pyStrip req.patient_id = "" then
      { result := .error ⟨400, "patient_id is required"⟩, db := db, uploads := [] }
    else if req.patient_name = "" || pyStrip req.patient_name = "" then
      { result := .error ⟨400, "patient_name is required"⟩, db := db, uploads := [] }
    else if req.summary_text = "" || pyStrip req.summary_text = "" then
      { result := .error ⟨400, "summary_text is required"⟩, db := db, uploads := [] }
    else if truthy req.raw_notes_text && req.raw_notes_file.isSome then
      { result := .error ⟨400, "Cannot provide both raw_notes_text and raw_notes_file. Choose one."⟩
        db := db, uploads := [] }
    else
      let notes_type := determine_notes_type req.raw_notes_text req.raw_notes_file
      match req.raw_notes_file with
      | some file =>
        if !(pyEndsWith file.filename ".pdf") then
          { result := .error ⟨400, "Only PDF files are allowed for raw_notes_file"⟩
            db := db, uploads := [] }
        else
          let keyUrl := upload_pdf_to_supabase env file req.patient_id
          finishCreate env req diagnoses_list notes_type (some keyUrl.2) db [keyUrl.1]
      | none => finishCreate env req diagnoses_list notes_type none db []

/-- `GET /summaries/{summary_id}` (`get_summary_by_id`): single-row fetch
by primary key; an empty result is a 404 whose message names the id. -/
def get_summary_by_id (db : Datastore) (summary_id : String) :
    Except HTTPException SummaryResponse :=
  match db.find? (fun r => r.summary_id = summary_id) with
  | none => .error ⟨404, "Summary with ID " ++ summary_id ++ " not found"⟩
  | some row => .ok (rowToResponse row)

/-- Datastore `order("created_at", desc=True)`: insertion sort, newest
first. -/
def insertDesc (r : SummaryRow) : List SummaryRow → List SummaryRow
  | [] => [r]
  | x :: xs => if x.created_at ≤ r.created_at then r :: x :: xs else x :: insertDesc r xs

def sortByCreatedDesc : List SummaryRow → List SummaryRow
  | [] => []
  | x :: xs => insertDesc x (sortByCreatedDesc xs)

/-- Microseconds per day; `datetime.max.time()` is `23:59:59.999999`,
the last microsecond of the day. -/
def usPerDay : Nat := 86400000000

/-- The lower bound sent to the datastore by `get_summaries_by_date`:
`datetime.combine(target_date, datetime.min.time()).isoformat() + "Z"`
denotes `00:00:00` UTC on the target date.  Dates are identified with
their epoch day number. -/
def by_date_start_us (day : Nat) : Nat := day * usPerDay

/-- The upper bound: `datetime.combine(target_date,
datetime.max.time()).isoformat() + "Z"` denotes `23:59:59.999999` UTC. -/
def by_date_end_us (day : Nat) : Nat := day * usPerDay + (usPerDay - 1)

/-- `GET /summaries/by-date` (`get_summaries_by_date`) after the
`YYYY-MM-DD` format validation: the datastore filter is
`gte(created_at, start)` and `lte(created_at, end)` — an inclusive
range — ordered descending, projected to list items. -/
def get_summaries_by_date (db : Datastore) (day : Nat) : List SummaryListItem :=
  (sortByCreatedDesc (db.filter (fun r =>
    by_date_start_us day ≤ r.created_at && r.created_at ≤ by_date_end_us day))).map
    rowToListItem

/-- `GET /summaries/by-patient/{patient_id}` (`get_summaries_by_patient`). -/
def get_summaries_by_patient (db : Datastore) (patient_id : String) :
    List SummaryListItem :=
  (sortByCreatedDesc (db.filter (fun r => r.patient_id = patient_id))).map rowToListItem

/-- The handler body of `GET /summaries/all` (`get_all_summaries`):
order descending, `limit(limit)`, project. -/
def get_all_summaries (db : Datastore) (limit : Nat) : List SummaryListItem :=
  ((sortByCreatedDesc db).take limit).map rowToListItem

/-- The request-validation rejection FastAPI produces for a query
parameter outside its declared `ge`/`le` bounds (HTTP 422). -/
def limitRejection : HTTPException :=
  ⟨422, "Input should be within the range [1, 1000]"⟩

/-- The `GET /summaries/all` route including its parameter declaration
`limit: int = Query(default=100, ge=1, le=1000)`: an omitted limit
defaults to 100, and an out-of-bounds limit is rejected by FastAPI
before the handler body runs (hence before any datastore access). -/
def get_all_summaries_route (db : Datastore) (limit : Option Int) :
    Except HTTPException (List SummaryListItem) :=
  let l := limit.getD 100
  if l < 1 || l > 1000 then .error limitRejection
  else .ok (get_all_summaries db l.toNat)

/-- Whether an endpoint result is a success. -/
def isOk : Except HTTPException SummaryResponse → Bool
  | .ok _ => true
  | .error _ => false

/-- The error produced by an endpoint result, if any. -/
def resultError : Except HTTPException SummaryResponse → Option HTTPException
  | .error e => some e
  | .ok _ => none

/-- The create-validation checklist as the specification words it, in the
specified order, with the first failing check determining the error.
Amended per the code: the well-formed-JSON-but-not-an-array diagnoses
failure surfaces through the route-level generic exception handler as a
500, not as an `InvalidArgument` 400. -/
def spec_first_validation_error (req : CreateRequest) : Option HTTPException :=
  match parseDiagnoses req.diagnoses with
  | .malformed =>
    some ⟨400, "Invalid JSON format for diagnoses field. Expected JSON array."⟩
  | .notArray _ =>
    some ⟨500, "Error creating summary: Diagnoses must be a JSON array"⟩
  | .ok _ =>
    if pyStrip req.patient_id = "" then some ⟨400, "patient_id is required"⟩
    else if pyStrip req.patient_name = "" then some ⟨400, "patient_name is required"⟩
    else if pyStrip req.summary_text = "" then some ⟨400, "summary_text is required"⟩
    else if truthy req.raw_notes_text && req.raw_notes_file.isSome then
      some ⟨400, "Cannot provide both raw_notes_text and raw_notes_file. Choose one."⟩
    else
      match req.raw_notes_file with
      | some f =>
        if pyEndsWith f.filename ".pdf" then none
        else some ⟨400, "Only PDF files are allowed for raw_notes_file"⟩
      | none => none

/-- The character list `parse_supabase_datetime` hands to
`fromisoformat` (its three branches). -/
def effIsoChars (s : String) : List Char :=
  if s.data.getLast? = some 'Z' then replaceZchars s.data
  else if s.data.contains '+' || s.data.count '-' > 2 then s.data
  else s.data ++ ['+', '0', '0', ':', '0', '0']

/-! ### Supporting lemmas -/

theorem mem_insertDesc {a r : SummaryRow} {l : List SummaryRow} :
    a ∈ insertDesc r l ↔ a = r ∨ a ∈ l := by
  induction l with
  | nil => simp [insertDesc]
  | cons x xs ih =>
    by_cases h : x.created_at ≤ r.created_at
    · simp [insertDesc, h]
    · simp [insertDesc, h, ih]
      tauto

theorem mem_sortByCreatedDesc {a : SummaryRow} {l : List SummaryRow} :
    a ∈ sortByCreatedDesc l ↔ a ∈ l := by
  induction l with
  | nil => simp [sortByCreatedDesc]
  | cons x xs ih => simp [sortByCreatedDesc, mem_insertDesc, ih]

theorem length_insertDesc (r : SummaryRow) (l : List SummaryRow) :
    (insertDesc r l).length = l.length + 1 := by
  induction l with
  | nil => simp [insertDesc]
  | cons x xs ih =>
    by_cases h : x.created_at ≤ r.created_at
    · simp [insertDesc, h]
    · simp [insertDesc, h, ih]

theorem length_sortByCreatedDesc (l : List SummaryRow) :
    (sortByCreatedDesc l).length = l.length := by
  induction l with
  | nil => rfl
  | cons x xs ih => simp [sortByCreatedDesc, length_insertDesc, ih]

/-! ### Claims -/

/-- C1: for every `summary_id` matching no row, `get_summary_by_id` fails
with exactly the 404 `NotFound` error whose message names that id — no
other error class can be produced for a nonexistent id. -/
theorem getById_nonexistent_404 (db : Datastore) (sid : String)
    (h : ∀ r ∈ db, r.summary_id ≠ sid) :
    get_summary_by_id db sid
      = .error ⟨404, "Summary with ID " ++ sid ++ " not found"⟩ := by
  unfold get_summary_by_id
  have hf : db.find? (fun r => r.summary_id = sid) = none := by
    rw [List.find?_eq_none]
    intro r hr
    simp [h r hr]
  rw [hf]

theorem getById_nonexistent_404_witness :
    get_summary_by_id [] "abc"
      = .error ⟨404, "Summary with ID abc not found"⟩ :=
  getById_nonexistent_404 [] "abc" (by simp)

/-- C2 counterexample: the claim fails at `diagnoses = "\x7b\x7d"` (valid
JSON that is not an array): the `ValueError` escapes the
`except json.JSONDecodeError` clause and the request fails with a 500,
not the claimed `InvalidArgument` 400 (which malformed JSON such as
`"not json"` does produce). -/
theorem create_diagnoses_error_statuses :
    (create_summary ⟨"s1", 0, "u1"⟩
        { patient_id := "p", patient_name := "n", summary_text := "t",
          diagnoses := "not json" } []).result
      = .error ⟨400, "Invalid JSON format for diagnoses field. Expected JSON array."⟩
    ∧ (create_summary ⟨"s1", 0, "u1"⟩
        { patient_id := "p", patient_name := "n", summary_text := "t",
          diagnoses := "\x7b\x7d" } []).result
      = .error ⟨500, "Error creating summary: Diagnoses must be a JSON array"⟩
    ∧ (500 : Nat) ≠ 400 :=
  ⟨rfl, rfl, by decide⟩

/-- C6 counterexample: not every failing validation check produces an
`InvalidArgument`: with `diagnoses = "\x7b\x7d"` the first failing check
(the diagnoses parse) yields a 500. -/
theorem create_validation_not_all_400 :
    resultError (create_summary ⟨"s2", 0, "u2"⟩
        { patient_id := "p2", patient_name := "n2", summary_text := "t2",
          diagnoses := "\x7b\x7d" } []).result
      = some ⟨500, "Error creating summary: Diagnoses must be a JSON array"⟩
    ∧ ¬ (500 : Nat) = 400 :=
  ⟨rfl, by decide⟩

/-- C3 counterexample: a request with `raw_notes_text` present as the
empty string and a file present is not rejected — it succeeds, inserts a
row and uploads the file. -/
theorem create_empty_text_with_file_not_rejected :
    isOk (create_summary ⟨"s3", 5, "u3"⟩
        { patient_id := "p3", patient_name := "n3", summary_text := "t3",
          raw_notes_text := some "", raw_notes_file := some ⟨"n.pdf"⟩ } []).result = true
    ∧ (create_summary ⟨"s3", 5, "u3"⟩
        { patient_id := "p3", patient_name := "n3", summary_text := "t3",
          raw_notes_text := some "", raw_notes_file := some ⟨"n.pdf"⟩ } []).db.length = 1
    ∧ (create_summary ⟨"s3", 5, "u3"⟩
        { patient_id := "p3", patient_name := "n3", summary_text := "t3",
          raw_notes_text := some "", raw_notes_file := some ⟨"n.pdf"⟩ } []).uploads
        = ["p3/u3.pdf"] :=
  ⟨rfl, rfl, rfl⟩

/-- C9 counterexample: creating with `raw_notes_text = ""` and no file
succeeds and persists a row whose `raw_notes_type` is `"none"` while its
`raw_notes_text` is non-null (`some ""`). -/
theorem create_empty_text_stored_nonnull :
    ((create_summary ⟨"s9", 7, "u9"⟩
        { patient_id := "p9", patient_name := "n9", summary_text := "t9",
          raw_notes_text := some "" } []).db.map
        (fun r => (r.raw_notes_type, r.raw_notes_text)))
      = [("none", some "")]
    ∧ (some "" : Option String) ≠ none :=
  ⟨rfl, by decide⟩

/-- C10 counterexample: the bare date string `"2024-01-15"` is accepted
by `parse_supabase_datetime` (the appended `+00:00` is consumed as
separator-plus-time) and the returned datetime is timezone-naive. -/
theorem parse_supabase_datetime_bare_date_naive :
    parse_supabase_datetime "2024-01-15" = some ⟨2024, 1, 15, 0, 0, 0, 0, none⟩
    ∧ (none : Option Int).isSome = false :=
  ⟨rfl, rfl⟩

theorem empty_or_strip_iff (a : String) : (a = "" ∨ pyStrip a = "") ↔ pyStrip a = "" := by
  constructor
  · rintro (h | h)
    · subst h; rfl
    · exact h
  · intro h
    exact Or.inr h

/-- C6 (amended): the validation checks run in the specified fixed order —
diagnoses parse, then required-field presence naming the field, then
text/file mutual exclusivity, then the `.pdf` filename check — and the
first failing check determines the error; every failure is an
`InvalidArgument` 400 except the well-formed-JSON-but-not-an-array
diagnoses failure, which surfaces as a 500 via the generic handler. -/
theorem create_validation_order (env : Env) (req : CreateRequest) (db : Datastore) :
    resultError (create_summary env req db).result = spec_first_validation_error req := by
  unfold create_summary spec_first_validation_error
  cases hd : parseDiagnoses req.diagnoses with
  | malformed => rfl
  | notArray v => rfl
  | ok xs =>
    simp only [Bool.or_eq_true, decide_eq_true_eq, empty_or_strip_iff]
    cases hf : req.raw_notes_file with
    | none => split_ifs <;> simp [resultError, finishCreate]
    | some f =>
      by_cases hp : pyEndsWith f.filename ".pdf" <;>
        split_ifs <;>
          simp_all [resultError, finishCreate, upload_pdf_to_supabase]

/-- Inversion of a successful create: the diagnoses parsed as an array,
the inserted row is the assembled `summary_data` with the derived notes
type, the response echoes that row, the file URL is set exactly when a
file was supplied, and text and file were not both (truthily) present. -/
theorem create_success_inversion (env : Env) (req : CreateRequest) (db : Datastore)
    (resp : SummaryResponse) (h : (create_summary env req db).result = .ok resp) :
    ∃ xs fileUrl, parseDiagnoses req.diagnoses = .ok xs
      ∧ resp = rowToResponse (mkRow env req xs
          (determine_notes_type req.raw_notes_text req.raw_notes_file) fileUrl)
      ∧ (create_summary env req db).db
          = db ++ [mkRow env req xs
              (determine_notes_type req.raw_notes_text req.raw_notes_file) fileUrl]
      ∧ fileUrl.isSome = req.raw_notes_file.isSome
      ∧ (truthy req.raw_notes_text && req.raw_notes_file.isSome) = false := by
  unfold create_summary at h ⊢
  cases hd : parseDiagnoses req.diagnoses with
  | malformed => rw [hd] at h; simp at h
  | notArray v => rw [hd] at h; simp at h
  | ok xs =>
    rw [hd] at h
    cases hf : req.raw_notes_file with
    | none =>
      rw [hf] at h
      dsimp only [Option.isSome] at h ⊢
      split_ifs at h ⊢
      refine ⟨xs, none, rfl, ?_, ?_, ?_, ?_⟩
      · simpa [finishCreate] using h.symm
      · simp [finishCreate]
      · rfl
      · simp_all
    | some f =>
      rw [hf] at h
      dsimp only [Option.isSome] at h ⊢
      split_ifs at h ⊢
      refine ⟨xs, some (upload_pdf_to_supabase env f req.patient_id).2, rfl, ?_, ?_, ?_, ?_⟩
      · simpa [finishCreate] using h.symm
      · simp [finishCreate]
      · rfl
      · simp_all

/-! ### Concrete fixtures for evaluating the theorems on explicit inputs -/

def envW3a : Env := ⟨"sA", 1, "uA"⟩

def reqW3a : CreateRequest :=
  { patient_id := "pA", patient_name := "nA", summary_text := "tA",
    raw_notes_text := some "foo", raw_notes_file := some ⟨"notes.pdf"⟩ }

def envW4 : Env := ⟨"s4", 3, "u4"⟩

def reqW4 : CreateRequest :=
  { patient_id := "p4", patient_name := "n4", summary_text := "t4",
    raw_notes_file := some ⟨"doc.pdf"⟩ }

def respW4 : SummaryResponse :=
  ⟨"s4", "p4", "n4", "t4", [], none, none, none, "pdf", none,
    some "public:p4/u4.pdf", 3⟩

def envW8 : Env := ⟨"s8", 11, "u8"⟩

def reqW8 : CreateRequest :=
  { patient_id := "p8", patient_name := "n8", summary_text := "t8",
    diagnoses := "[\"A\",\"B\"]" }

def respW8 : SummaryResponse :=
  ⟨"s8", "p8", "n8", "t8", [Json.str "A", Json.str "B"], none, none, none,
    "none", none, none, 11⟩

def envW9 : Env := ⟨"s9b", 13, "u9b"⟩

def reqW9 : CreateRequest :=
  { patient_id := "p9b", patient_name := "n9b", summary_text := "t9b",
    raw_notes_text := some "note" }

def rowW7 : SummaryRow :=
  ⟨"r7", "p7", "n7", "t7", [], none, none, none, "none", none, none, 21⟩

def rowW7b : SummaryRow :=
  ⟨"r7b", "p7b", "n7b", "t7b", [], none, none, none, "none", none, none, 22⟩

def dayW5 : Nat := 19737

def rowW5 : SummaryRow :=
  ⟨"r5", "p5", "n5", "t5", [], none, none, none, "none", none, none,
    19737 * 86400000000 + 3600000000⟩

/-- C4: every successful create persists and returns a `raw_notes_type`
in `{"text", "pdf", "none"}`, equal to `"pdf"` when a file was uploaded,
else `"text"` when `raw_notes_text` is non-empty, else `"none"`. -/
theorem create_success_raw_notes_type (env : Env) (req : CreateRequest)
    (db : Datastore) (resp : SummaryResponse)
    (h : (create_summary env req db).result = .ok resp) :
    (resp.raw_notes_type = "text" ∨ resp.raw_notes_type = "pdf"
      ∨ resp.raw_notes_type = "none")
    ∧ resp.raw_notes_type
        = (if req.raw_notes_file.isSome then "pdf"
           else if truthy req.raw_notes_text then "text" else "none")
    ∧ ∃ row, (create_summary env req db).db = db ++ [row]
        ∧ row.raw_notes_type = resp.raw_notes_type := by
  obtain ⟨xs, fileUrl, hd, hresp, hdb, hurl, hexcl⟩ :=
    create_success_inversion env req db resp h
  subst hresp
  refine ⟨?_, rfl, ⟨_, hdb, rfl⟩⟩
  unfold determine_notes_type
  split_ifs <;> simp [rowToResponse, mkRow]

theorem create_success_raw_notes_type_witness :
    (respW4.raw_notes_type = "text" ∨ respW4.raw_notes_type = "pdf"
      ∨ respW4.raw_notes_type = "none")
    ∧ respW4.raw_notes_type
        = (if reqW4.raw_notes_file.isSome then "pdf"
           else if truthy reqW4.raw_notes_text then "text" else "none")
    ∧ ∃ row, (create_summary envW4 reqW4 []).db = [] ++ [row]
        ∧ row.raw_notes_type = respW4.raw_notes_type :=
  create_success_raw_notes_type envW4 reqW4 [] respW4 rfl

/-- C9 (amended): every row create persists has a non-empty
`raw_notes_text` only when `raw_notes_type = "text"`, and a
`raw_notes_file_url` only when `raw_notes_type = "pdf"` (an empty-string
`raw_notes_text` is stored verbatim, so only non-emptiness is tied to
the type). -/
theorem create_raw_notes_invariant (env : Env) (req : CreateRequest)
    (db : Datastore) (resp : SummaryResponse)
    (h : (create_summary env req db).result = .ok resp) :
    ∃ row, (create_summary env req db).db = db ++ [row]
      ∧ (∀ t, row.raw_notes_text = some t → ¬ t = "" → row.raw_notes_type = "text")
      ∧ (row.raw_notes_file_url.isSome = true → row.raw_notes_type = "pdf") := by
  obtain ⟨xs, fileUrl, hd, hresp, hdb, hurl, hexcl⟩ :=
    create_success_inversion env req db resp h
  refine ⟨_, hdb, ?_, ?_⟩
  · intro t ht hne
    have htr : truthy req.raw_notes_text = true := by
      have : req.raw_notes_text = some t := ht
      simp [truthy, this, hne]
    have hfn : req.raw_notes_file.isSome = false := by
      cases hfi : req.raw_notes_file.isSome
      · rfl
      · rw [htr, hfi] at hexcl
        simp at hexcl
    show determine_notes_type req.raw_notes_text req.raw_notes_file = "text"
    simp [determine_notes_type, hfn, htr]
  · intro hu
    have hfs : req.raw_notes_file.isSome = true := by
      rw [← hurl]
      exact hu
    show determine_notes_type req.raw_notes_text req.raw_notes_file = "pdf"
    simp [determine_notes_type, hfs]

theorem create_raw_notes_invariant_witness :
    ∃ row, (create_summary envW9 reqW9 []).db = [] ++ [row]
      ∧ (∀ t, row.raw_notes_text = some t → ¬ t = "" → row.raw_notes_type = "text")
      ∧ (row.raw_notes_file_url.isSome = true → row.raw_notes_type = "pdf") :=
  create_raw_notes_invariant envW9 reqW9 []
    (rowToResponse (mkRow envW9 reqW9 [] "text" none)) rfl

/-- C3 (amended): when the diagnoses field parses as an array and
`raw_notes_text` is truthy (a non-empty string) while a file is also
present, create fails with an `InvalidArgument` 400, inserts no row and
uploads no file.  (A present-but-empty `raw_notes_text` alongside a file
is accepted — see the counterexample.) -/
theorem create_text_and_file_rejected (env : Env) (req : CreateRequest)
    (db : Datastore) (xs : List Json)
    (hd : parseDiagnoses req.diagnoses = .ok xs)
    (ht : truthy req.raw_notes_text = true)
    (hf : req.raw_notes_file.isSome = true) :
    (∃ e, (create_summary env req db).result = .error e ∧ e.status_code = 400)
    ∧ (create_summary env req db).db = db
    ∧ (create_summary env req db).uploads = [] := by
  unfold create_summary
  rw [hd]
  split_ifs <;> first
    | exact ⟨⟨_, rfl, rfl⟩, rfl, rfl⟩
    | simp_all

theorem create_text_and_file_rejected_witness :
    (∃ e, (create_summary envW3a reqW3a []).result = .error e ∧ e.status_code = 400)
    ∧ (create_summary envW3a reqW3a []).db = []
    ∧ (create_summary envW3a reqW3a []).uploads = [] :=
  create_text_and_file_rejected envW3a reqW3a [] [] rfl rfl rfl

/-- C8: after a successful create into a datastore not already holding
the fresh id, fetching the returned `summary_id` yields the identical
record; its `diagnoses` equal the list parsed at create time, order
preserved — in particular `"[\"A\",\"B\"]"` round-trips to
`["A", "B"]`. -/
theorem create_then_getById_roundtrip (env : Env) (req : CreateRequest)
    (db : Datastore) (resp : SummaryResponse)
    (h : (create_summary env req db).result = .ok resp)
    (hfresh : ∀ r ∈ db, r.summary_id ≠ env.fresh_summary_id) :
    get_summary_by_id (create_summary env req db).db resp.summary_id = .ok resp
    ∧ (∀ xs, parseDiagnoses req.diagnoses = .ok xs → resp.diagnoses = xs)
    ∧ (req.diagnoses = "[\"A\",\"B\"]"
        → resp.diagnoses = [Json.str "A", Json.str "B"]) := by
  obtain ⟨xs, fileUrl, hd, hresp, hdb, hurl, hexcl⟩ :=
    create_success_inversion env req db resp h
  have hid : resp.summary_id = env.fresh_summary_id := by rw [hresp]; rfl
  have hdiag : resp.diagnoses = xs := by rw [hresp]; rfl
  refine ⟨?_, ?_, ?_⟩
  · rw [hdb]
    unfold get_summary_by_id
    rw [List.find?_append]
    have h1 : db.find? (fun r => r.summary_id = resp.summary_id) = none := by
      rw [List.find?_eq_none]
      intro r hr
      simp [hid, hfresh r hr]
    rw [h1]
    have h2 : (([mkRow env req xs
          (determine_notes_type req.raw_notes_text req.raw_notes_file) fileUrl])
            : List SummaryRow).find?
          (fun r => r.summary_id = resp.summary_id)
        = some (mkRow env req xs
            (determine_notes_type req.raw_notes_text req.raw_notes_file) fileUrl) := by
      simp [List.find?, hid, mkRow]
    rw [h2]
    rw [hresp]
    rfl
  · intro xs2 hd2
    rw [hd] at hd2
    cases hd2
    exact hdiag
  · intro hAB
    have hxs : parseDiagnoses req.diagnoses = .ok [Json.str "A", Json.str "B"] := by
      rw [hAB]; rfl
    rw [hd] at hxs
    cases hxs
    exact hdiag

theorem create_then_getById_roundtrip_witness :
    get_summary_by_id (create_summary envW8 reqW8 []).db respW8.summary_id = .ok respW8
    ∧ respW8.diagnoses = [Json.str "A", Json.str "B"] :=
  ⟨(create_then_getById_roundtrip envW8 reqW8 [] respW8 rfl (by simp)).1,
    (create_then_getById_roundtrip envW8 reqW8 [] respW8 rfl (by simp)).2.2 rfl⟩

/-- C5: for every accepted date (identified with its epoch day number),
a list item is returned exactly when some datastore row projecting to it
has `created_at` inside the inclusive UTC interval from `00:00:00` to
`23:59:59.999999` of that calendar day. -/
theorem listByDate_mem_iff (db : Datastore) (day : Nat) (it : SummaryListItem) :
    it ∈ get_summaries_by_date db day
      ↔ ∃ r, r ∈ db ∧ rowToListItem r = it
          ∧ day * 86400000000 ≤ r.created_at
          ∧ r.created_at ≤ day * 86400000000 + 86399999999 := by
  unfold get_summaries_by_date by_date_start_us by_date_end_us usPerDay
  simp only [List.mem_map, mem_sortByCreatedDesc, List.mem_filter,
    Bool.and_eq_true, decide_eq_true_eq]
  constructor
  · rintro ⟨r, ⟨hr, h1, h2⟩, rfl⟩
    exact ⟨r, hr, rfl, h1, by omega⟩
  · rintro ⟨r, hr, rfl, h1, h2⟩
    exact ⟨r, ⟨hr, h1, by omega⟩, rfl⟩

/-- C7 (amended): an out-of-bounds `limit` is rejected before any
datastore access (the result is the fixed FastAPI request-validation
rejection — HTTP 422, not an `InvalidArgument` 400 — for every datastore
state); an omitted `limit` defaults to 100; and every successful call
returns at most `limit` items. -/
theorem listAll_limit_contract (db db2 : Datastore) (l : Int) :
    ((l < 1 ∨ 1000 < l) →
      get_all_summaries_route db (some l) = .error limitRejection
      ∧ get_all_summaries_route db (some l) = get_all_summaries_route db2 (some l))
    ∧ get_all_summaries_route db none = get_all_summaries_route db (some 100)
    ∧ (∀ items, get_all_summaries_route db (some l) = .ok items
        → items.length ≤ l.toNat) := by
  refine ⟨?_, rfl, ?_⟩
  · intro hl
    have hc : (l < 1 || l > 1000) = true := by
      rcases hl with h | h <;> simp [h]
    constructor <;> simp [get_all_summaries_route, hc]
  · intro items hit
    unfold get_all_summaries_route at hit
    by_cases hc : (l < 1 || l > 1000) = true
    · simp [hc] at hit
    · simp only [Option.getD] at hit
      rw [if_neg (by simpa using hc)] at hit
      cases hit
      unfold get_all_summaries
      rw [List.length_map]
      exact List.length_take_le _ _

theorem listAll_limit_contract_witness :
    get_all_summaries_route [rowW7] (some 0) = .error limitRejection
    ∧ get_all_summaries_route [rowW7] (some 0)
        = get_all_summaries_route [rowW7b] (some 0) :=
  (listAll_limit_contract [rowW7] [rowW7b] 0).1 (Or.inl (by decide))

/-! ### The timezone-awareness analysis of `parse_supabase_datetime` -/

theorem getLast?_mem_self : ∀ {l : List Char} {a : Char}, l.getLast? = some a → a ∈ l := by
  intro l
  induction l with
  | nil => intro a h; simp at h
  | cons x xs ih =>
    intro a h
    cases xs with
    | nil =>
      simp at h
      simp [h]
    | cons y ys =>
      rw [List.getLast?_cons_cons] at h
      exact List.mem_cons_of_mem x (ih h)

theorem findChar_eq_none {c : Char} : ∀ {l : List Char}, findChar c l = none → ¬ c ∈ l := by
  intro l
  induction l with
  | nil => intro _ h; simp at h
  | cons x xs ih =>
    intro h hmem
    unfold findChar at h
    split_ifs at h with hx
    · cases hf : findChar c xs with
      | some i => rw [hf] at h; simp at h
      | none =>
        rcases List.mem_cons.mp hmem with h1 | h1
        · exact hx h1.symm
        · exact ih hf h1

theorem digitNotSign {c : Char} (h : c.isDigit = true) : ¬ c = '-' ∧ ¬ c = '+' := by
  constructor <;> intro he <;> rw [he] at h <;> exact absurd h (by decide)

theorem parseIsoDate_shape {l : List Char} {v : Nat × Nat × Nat}
    (h : parseIsoDate l = some v) :
    l.count '-' = 2 ∧ ¬ '+' ∈ l ∧ l.length = 10 := by
  unfold parseIsoDate at h
  split at h
  case h_2 => simp at h
  case h_1 y1 y2 y3 y4 m1 m2 d1 d2 =>
    split_ifs at h with hdig
    simp only [Bool.and_eq_true] at hdig
    obtain ⟨⟨⟨⟨⟨⟨⟨hy1, hy2⟩, hy3⟩, hy4⟩, hm1⟩, hm2⟩, hd1⟩, hd2⟩ := hdig
    have n1 := digitNotSign hy1
    have n2 := digitNotSign hy2
    have n3 := digitNotSign hy3
    have n4 := digitNotSign hy4
    have n5 := digitNotSign hm1
    have n6 := digitNotSign hm2
    have n7 := digitNotSign hd1
    have n8 := digitNotSign hd2
    refine ⟨?_, ?_, rfl⟩
    · simp [List.count_cons, n1.1, n2.1, n3.1, n4.1, n5.1, n6.1, n7.1, n8.1]
    · intro hmem
      simp only [List.mem_cons, List.not_mem_nil, or_false] at hmem
      rcases hmem with h1 | h1 | h1 | h1 | h1 | h1 | h1 | h1 | h1 | h1
      · exact n1.2 h1.symm
      · exact n2.2 h1.symm
      · exact n3.2 h1.symm
      · exact n4.2 h1.symm
      · exact absurd h1 (by decide)
      · exact n5.2 h1.symm
      · exact n6.2 h1.symm
      · exact absurd h1 (by decide)
      · exact n7.2 h1.symm
      · exact n8.2 h1.symm

theorem parseIsoTime_naive {tstr : List Char} {t : Nat × Nat × Nat × Nat}
    (h : parseIsoTime tstr = some (t, none)) :
    ¬ '-' ∈ tstr ∧ ¬ '+' ∈ tstr := by
  unfold parseIsoTime at h
  cases hm : findChar '-' tstr with
  | some i =>
    rw [hm] at h
    dsimp only at h
    split_ifs at h <;> split at h <;> simp_all
  | none =>
    rw [hm] at h
    cases hp : findChar '+' tstr with
    | some j =>
      rw [hp] at h
      dsimp only at h
      split_ifs at h <;> split at h <;> simp_all
    | none =>
      exact ⟨findChar_eq_none hm, findChar_eq_none hp⟩

theorem fromisoChars_naive {u : List Char} {dt : PyDatetime}
    (h : fromisoChars u = some dt) (hn : dt.utcoffset_us = none) :
    (u.take 10).count '-' = 2 ∧ ¬ '+' ∈ u.take 10 ∧ (u.take 10).length = 10
    ∧ ¬ '-' ∈ u.drop 11 ∧ ¬ '+' ∈ u.drop 11 := by
  unfold fromisoChars at h
  split at h
  · simp at h
  · rename_i y m d hdate
    obtain ⟨hc, hp, hl⟩ := parseIsoDate_shape hdate
    split at h
    · rename_i hdrop
      rw [hdrop]
      simp [hc, hp, hl]
    · split at h
      · simp at h
      · rename_i hh mm ss ff off htime
        split_ifs at h
        cases off with
        | some o =>
          injection h with h2
          rw [← h2] at hn
          simp at hn
        | none =>
          have hsigns := parseIsoTime_naive htime
          exact ⟨hc, hp, hl, hsigns.1, hsigns.2⟩

theorem fromisoChars_naive_sign_at_10 {u : List Char} {dt : PyDatetime}
    (h : fromisoChars u = some dt) (hn : dt.utcoffset_us = none)
    (hs : '+' ∈ u ∨ 2 < u.count '-') :
    u[10]? = some '+' ∨ u[10]? = some '-' := by
  obtain ⟨hc, hp, hl, hdm, hdp⟩ := fromisoChars_naive h hn
  have hlen : 10 ≤ u.length := by
    have := List.length_take 10 u
    omega
  have hsplit : u = u.take 10 ++ u.drop 10 := (List.take_append_drop 10 u).symm
  rcases Nat.lt_or_ge u.length 11 with hlt | hge
  · have hdrop : u.drop 10 = [] := by
      apply List.drop_eq_nil_of_le
      omega
    have hu : u = u.take 10 := by
      conv_lhs => rw [hsplit]
      rw [hdrop, List.append_nil]
    rcases hs with hmem | hcnt
    · rw [hu] at hmem
      exact absurd hmem hp
    · have : u.count '-' = 2 := by
        conv_lhs => rw [hu]
        exact hc
      omega
  · have hg : u[10]? = some u[10] := List.getElem?_eq_getElem (by omega)
    have hcons : u.drop 10 = u[10] :: u.drop 11 := List.drop_eq_getElem_cons (by omega)
    rcases hs with hmem | hcnt
    · rw [hsplit, List.mem_append, hcons, List.mem_cons] at hmem
      rcases hmem with h1 | h1 | h1
      · exact absurd h1 hp
      · left
        rw [hg, ← h1]
      · exact absurd h1 hdp
    · have hcount : u.count '-' = 2 + (u.drop 10).count '-' := by
        conv_lhs => rw [hsplit]
        rw [List.count_append, hc]
      rw [hcons, List.count_cons] at hcount
      rw [List.count_eq_zero.mpr hdm] at hcount
      by_cases hcd : u[10] = '-'
      · right
        rw [hg, hcd]
      · simp [hcd] at hcount
        omega

theorem mem_plus_replaceZ : ∀ {cs : List Char}, 'Z' ∈ cs → '+' ∈ replaceZchars cs := by
  intro cs
  induction cs with
  | nil => intro h; simp at h
  | cons x xs ih =>
    intro h
    unfold replaceZchars
    by_cases hx : x = 'Z'
    · simp [hx]
    · rw [if_neg hx]
      rcases List.mem_cons.mp h with h1 | h1
      · exact absurd h1.symm hx
      · exact List.mem_cons_of_mem x (ih h1)

/-- C10 (amended): every `created_at` string the parser accepts yields a
timezone-aware datetime unless an offset sign character occupies the
date–time separator slot (index 10) of the string handed to
`fromisoformat` — which happens in particular for every bare
`YYYY-MM-DD` input, to which the code appends `+00:00`; those are
accepted but returned naive. -/
theorem parse_supabase_datetime_aware (s : String) (dt : PyDatetime)
    (h : parse_supabase_datetime s = some dt) :
    dt.utcoffset_us.isSome = true
    ∨ (effIsoChars s)[10]? = some '+' ∨ (effIsoChars s)[10]? = some '-' := by
  cases hoff : dt.utcoffset_us with
  | some o => left; simp [hoff]
  | none =>
    right
    unfold parse_supabase_datetime at h
    unfold effIsoChars
    dsimp only at h
    split_ifs at h ⊢ with h1 h2
    · exact fromisoChars_naive_sign_at_10 h hoff
        (Or.inl (mem_plus_replaceZ (getLast?_mem_self h1)))
    · exact fromisoChars_naive_sign_at_10 h hoff (by simpa using h2)
    · exact fromisoChars_naive_sign_at_10 h hoff (Or.inl (by simp))

theorem parse_supabase_datetime_aware_witness :
    (⟨2024, 1, 15, 10, 30, 0, 0, some 0⟩ : PyDatetime).utcoffset_us.isSome = true
    ∨ (effIsoChars "2024-01-15T10:30:00")[10]? = some '+'
    ∨ (effIsoChars "2024-01-15T10:30:00")[10]? = some '-' :=
  parse_supabase_datetime_aware "2024-01-15T10:30:00"
    ⟨2024, 1, 15, 10, 30, 0, 0, some 0⟩ rfl

/-- C2 (amended): for every create request whose diagnoses field is
malformed JSON, create fails with `InvalidArgument` 400; for every
request whose diagnoses field is valid JSON that is not an array, the
raised `ValueError` is not a `json.JSONDecodeError`, so create fails
with a 500 through the route-level generic handler; in both cases no
row is inserted and no file is uploaded. -/
theorem create_diagnoses_parse_failures (env : Env) (req : CreateRequest) :
    (parseDiagnoses req.diagnoses = .malformed →
      ∀ db, create_summary env req db
        = ⟨.error ⟨400, "Invalid JSON format for diagnoses field. Expected JSON array."⟩,
            db, []⟩)
    ∧ (∀ v, parseDiagnoses req.diagnoses = .notArray v →
      ∀ db, create_summary env req db
        = ⟨.error ⟨500, "Error creating summary: Diagnoses must be a JSON array"⟩,
            db, []⟩) := by
  constructor
  · intro hm db
    unfold create_summary
    rw [hm]
  · intro v hm db
    unfold create_summary
    rw [hm]

theorem create_diagnoses_parse_failures_witness :
    create_summary ⟨"s1", 0, "u1"⟩
        { patient_id := "p", patient_name := "n", summary_text := "t",
          diagnoses := "not json" } []
      = ⟨.error ⟨400, "Invalid JSON format for diagnoses field. Expected JSON array."⟩,
          [], []⟩
    ∧ create_summary ⟨"s1", 0, "u1"⟩
        { patient_id := "p", patient_name := "n", summary_text := "t",
          diagnoses := "\x7b\x7d" } []
      = ⟨.error ⟨500, "Error creating summary: Diagnoses must be a JSON array"⟩,
          [], []⟩ :=
  ⟨(create_diagnoses_parse_failures ⟨"s1", 0, "u1"⟩
      { patient_id := "p", patient_name := "n", summary_text := "t",
        diagnoses := "not json" }).1 rfl [],
    (create_diagnoses_parse_failures ⟨"s1", 0, "u1"⟩
      { patient_id := "p", patient_name := "n", summary_text := "t",
        diagnoses := "\x7b\x7d" }).2 (Json.obj []) rfl []⟩

/-- C7 counterexample: the out-of-bounds `limit` rejection carries
FastAPI's request-validation status 422, not the `InvalidArgument`
HTTP 400 the claim (via the specification's error taxonomy) requires. -/
theorem listAll_limit_rejection_not_400 :
    get_all_summaries_route [] (some 0) = .error limitRejection
    ∧ limitRejection.status_code = 422
    ∧ ¬ limitRejection.status_code = 400 :=
  ⟨rfl, rfl, by decide⟩

end Medora
